import Mathlib

/-!
Shallow embedding of the HeartBot-AI token ingestion, deduplication and
filter-matching core, translated from the latest revision of the source:

* `src/services/pumpfun.ts` (second revision): `PumpFunService.getNewTokens`,
  `resetLastCheckedTimestamp`, the per-user `lastSeenTokens` record;
* `src/index.ts` (second revision): the monitoring cycle installed by
  `startTokenMonitoring`, `enableMonitoring`, `getActiveMonitoringCount`;
* the Telegram service snapshot holding the public
  `matchesFilter(token, filter)` used by the cycle, and the first-revision
  `HeartBot.matchesFilter` (market-cap/liquidity bounds only).

JavaScript runtime behaviour that the code relies on (truthiness of
numbers and strings, `parseFloat` returning `NaN`, strict inequality with
`undefined`) is modelled explicitly below.  USD amounts and numeric filter
bounds are rationals; timestamps are integers.
-/

/-- A raw numeric JSON field as delivered by the upstream API: `absent`
models `undefined`/missing, `numv` a JSON number, and `strv` a JSON string
carrying its JavaScript truthiness (a string is falsy exactly when it is
empty) together with its `parseFloat` result, where `none` models `NaN`. -/
inductive RawNum where
  | absent
  | numv (v : ℚ)
  | strv (truthy : Bool) (parsed : Option ℚ)
deriving DecidableEq

/-- JavaScript truthiness of a raw field (`undefined` and the number `0`
are falsy; a string is falsy iff empty). -/
def RawNum.truthy : RawNum → Bool
  | .absent => false
  | .numv v => v != 0
  | .strv t _ => t

/-- `parseFloat` applied to a raw field; `none` models `NaN`
(`parseFloat(undefined)` is `NaN`; a number parses to itself). -/
def RawNum.parseFloat : RawNum → Option ℚ
  | .absent => none
  | .numv v => some v
  | .strv _ p => p

/-- Truthiness of an optional string field (`undefined` and `""` are falsy). -/
def jsStrTruthy : Option String → Bool
  | none => false
  | some s => s != ""

/-- Truthiness of a JavaScript number that may be `undefined`/`null`/`NaN`
(all modelled `none`): falsy for `none` and for `0`.  This is the guard
used both on token fields and on nullable numeric filter columns. -/
def jsTruthy : Option ℚ → Bool
  | none => false
  | some v => v != 0

/-- Truthiness of the `priceUsd` string field of a normalized token.  The
pipeline stores `priceUsd.toString()` of a parsed number, which is a
nonempty (hence truthy) string; we keep the parsed value, so truthiness is
simply presence. -/
def strNumTruthy : Option ℚ → Bool
  | none => false
  | some _ => true

/-- One raw token object from the upstream feed (the fields the core
reads).  `timestamp` is the upstream creation timestamp; the second
revision of `getNewTokens` never reads it, but the freshness-cursor claim
is stated against it. -/
structure RawToken where
  address : Option String
  tokenAddress : Option String
  name : Option String
  symbol : Option String
  priceUsd : RawNum
  liquidity : RawNum
  fullyDilutedValuation : RawNum
  timestamp : Option ℤ
deriving DecidableEq

/-- The canonical `TokenData` (src/types.ts).  Fields that
`matchesFilter` explicitly tests against `undefined` at runtime are
`Option`-valued; the pipeline always produces `some` values for them.
`priceUsd` stores the parsed value behind the `priceUsd` string. -/
structure TokenData where
  address : String
  name : String
  symbol : String
  priceUsd : Option ℚ
  marketCap : Option ℚ
  liquidity : Option ℚ
  fdv : Option ℚ
  holdersCount : Option ℚ
  tradingEnabled : Option Bool
  contractAge : Option ℚ
  devTokensPercentage : Option ℚ
deriving DecidableEq

/-- One row of the `Filter` table as returned by the database client:
numeric columns are nullable (`none` models SQL `NULL`, which is falsy),
`trading_enabled` distinguishes `undefined` (outer `none`, field missing)
from SQL `NULL` (`some none`) from a boolean (`some (some b)`), because
the code tests it with `!== undefined`. -/
structure FilterRow where
  user_id : String := ""
  min_market_cap : Option ℚ := none
  max_market_cap : Option ℚ := none
  min_liquidity : Option ℚ := none
  max_liquidity : Option ℚ := none
  min_holders : Option ℚ := none
  max_holders : Option ℚ := none
  max_dev_tokens : Option ℚ := none
  min_contract_age : Option ℚ := none
  trading_enabled : Option (Option Bool) := none
deriving DecidableEq

/-- JavaScript strict equality `b === x` between a boolean and a
possibly-`null` value: a boolean is never strictly equal to `null`. -/
def tradingEq : Bool → Option Bool → Bool
  | b, some c => b == c
  | _, none => false

/-- Normalization of one raw token inside `PumpFunService.getNewTokens`
(second revision, the body after the seen-set bookkeeping): require
truthy `tokenAddress`/`name`/`symbol`, truthy raw `priceUsd` and
`liquidity`, parse them, compute `fdv` from `fullyDilutedValuation` or as
`priceUsd * liquidity` when both parsed numbers are truthy (else `0`),
and drop the token when any parsed value is `NaN`.  `marketCap` is set to
`fdv`; `holdersCount`, `contractAge`, `devTokensPercentage` are `0` and
`tradingEnabled` is `true`. -/
def normalizeToken (t : RawToken) : Option TokenData :=
  if !(jsStrTruthy t.tokenAddress && jsStrTruthy t.name && jsStrTruthy t.symbol) then none
  else if !(t.priceUsd.truthy && t.liquidity.truthy) then none
  else
    let p? := t.priceUsd.parseFloat
    let l? := t.liquidity.parseFloat
    let f? : Option ℚ :=
      if t.fullyDilutedValuation.truthy then t.fullyDilutedValuation.parseFloat
      else if jsTruthy p? && jsTruthy l? then some (p?.getD 0 * l?.getD 0) else some 0
    match p?, l?, f? with
    | some p, some l, some f =>
        some { address := t.tokenAddress.getD "", name := t.name.getD "",
               symbol := t.symbol.getD "", priceUsd := some p,
               marketCap := some f, liquidity := some l, fdv := some f,
               holdersCount := some 0, tradingEnabled := some true,
               contractAge := some 0, devTokensPercentage := some 0 }
    | _, _, _ => none

/-- One iteration of the token loop in `getNewTokens` (second revision):
skip when `token?.address` is falsy; skip when the address is already in
the seen-set; otherwise add the address to the seen-set FIRST and only
then attempt normalization. -/
def getNewTokensStep (seen : List String) (t : RawToken) :
    List String × Option TokenData :=
  match t.address with
  | none => (seen, none)
  | some a =>
      if a = "" then (seen, none)
      else if a ∈ seen then (seen, none)
      else (a :: seen, normalizeToken t)

/-- The token loop of `getNewTokens` over a fetched batch, threading the
seen-set and collecting the normalized new tokens in order. -/
def getNewTokensLoop : List String → List RawToken → List String × List TokenData
  | seen, [] => (seen, [])
  | seen, t :: ts =>
      let st := getNewTokensStep seen t
      let rest := getNewTokensLoop st.1 ts
      (rest.1, match st.2 with | none => rest.2 | some td => td :: rest.2)

/-- Read a user scope of the `lastSeenTokens` record, defaulting to the
empty set (the code initialises a fresh `Set` on first use). -/
def storeGet (store : List (String × List String)) (u : String) : List String :=
  match store.lookup u with
  | none => []
  | some s => s

/-- Write back a user scope of the `lastSeenTokens` record. -/
def storeSet (store : List (String × List String)) (u : String) (v : List String) :
    List (String × List String) :=
  match store with
  | [] => [(u, v)]
  | (k, w) :: rest => if k = u then (k, v) :: rest else (k, w) :: storeSet rest u v

/-- The mutable state of `PumpFunService`: the freshness cursor
`lastCheckedTimestamp` and the per-user `lastSeenTokens` record. -/
structure PumpFunState where
  lastCheckedTimestamp : ℤ
  lastSeenTokens : List (String × List String)
deriving DecidableEq

/-- `resetLastCheckedTimestamp`: sets the cursor back to `0`. -/
def resetLastCheckedTimestamp (s : PumpFunState) : PumpFunState :=
  { s with lastCheckedTimestamp := 0 }

/-- `PumpFunService.getNewTokens(userId)` on a successfully fetched batch
of raw tokens: run the token loop against the caller scope of
`lastSeenTokens` and store the grown seen-set back.  The freshness cursor
is read for a debug log only and never written. -/
def getNewTokensSvc (s : PumpFunState) (userId : String) (raws : List RawToken) :
    PumpFunState × List TokenData :=
  let seen := storeGet s.lastSeenTokens userId
  let r := getNewTokensLoop seen raws
  ({ s with lastSeenTokens := storeSet s.lastSeenTokens userId r.1 }, r.2)

/-- The maximum upstream `timestamp` occurring in a raw batch (0 when none
carries one) — the value the specification says the cursor is advanced to. -/
def batchMaxTimestamp (raws : List RawToken) : ℤ :=
  raws.foldr (fun t acc => max (t.timestamp.getD 0) acc) 0

/-- The public `TelegramService.matchesFilter(token, filter)` used by the
second-revision monitoring cycle.  Each numeric bound is guarded by a
JavaScript truthiness test on the filter column; the market-cap and
liquidity checks additionally require the token field to be defined; the
holders, dev-tokens and contract-age checks return `true` immediately
(skipping every later predicate) when a bound is set but the token field
is `undefined`; the trading check fires whenever `trading_enabled` is not
`undefined` and the token field is defined. -/
def Telegram.matchesFilter (token : TokenData) (f : FilterRow) : Bool :=
  if jsTruthy f.min_market_cap && token.marketCap.isSome
      && decide (token.marketCap.getD 0 < f.min_market_cap.getD 0) then false
  else if jsTruthy f.max_market_cap && token.marketCap.isSome
      && decide (token.marketCap.getD 0 > f.max_market_cap.getD 0) then false
  else if jsTruthy f.min_liquidity && token.liquidity.isSome
      && decide (token.liquidity.getD 0 < f.min_liquidity.getD 0) then false
  else if jsTruthy f.max_liquidity && token.liquidity.isSome
      && decide (token.liquidity.getD 0 > f.max_liquidity.getD 0) then false
  else if (jsTruthy f.min_holders || jsTruthy f.max_holders)
      && token.holdersCount.isNone then true
  else if jsTruthy f.min_holders && token.holdersCount.isSome
      && decide (token.holdersCount.getD 0 < f.min_holders.getD 0) then false
  else if jsTruthy f.max_holders && token.holdersCount.isSome
      && decide (token.holdersCount.getD 0 > f.max_holders.getD 0) then false
  else if jsTruthy f.max_dev_tokens && token.devTokensPercentage.isNone then true
  else if jsTruthy f.max_dev_tokens && token.devTokensPercentage.isSome
      && decide (token.devTokensPercentage.getD 0 > f.max_dev_tokens.getD 0) then false
  else if jsTruthy f.min_contract_age && token.contractAge.isNone then true
  else if jsTruthy f.min_contract_age && token.contractAge.isSome
      && decide (token.contractAge.getD 0 < f.min_contract_age.getD 0) then false
  else if f.trading_enabled.isSome && token.tradingEnabled.isSome
      && !(tradingEq (token.tradingEnabled.getD true) (f.trading_enabled.getD none)) then false
  else true

/-- JavaScript `<` between two possibly-undefined numbers: any comparison
involving `undefined` (NaN after coercion) is `false`. -/
def jsLt (a b : Option ℚ) : Bool :=
  match a, b with
  | some x, some y => decide (x < y)
  | _, _ => false

/-- JavaScript `>` between two possibly-undefined numbers. -/
def jsGt (a b : Option ℚ) : Bool :=
  match a, b with
  | some x, some y => decide (x > y)
  | _, _ => false

/-- The first-revision `HeartBot.matchesFilter` (src/index.ts, first
snapshot): only the four market-cap/liquidity bounds, each guarded by a
truthiness test on the filter column, with no definedness guard on the
token field (a comparison against `undefined` is simply false). -/
def LegacyBot.matchesFilter (token : TokenData) (f : FilterRow) : Bool :=
  if jsTruthy f.min_market_cap && jsLt token.marketCap f.min_market_cap then false
  else if jsTruthy f.max_market_cap && jsGt token.marketCap f.max_market_cap then false
  else if jsTruthy f.min_liquidity && jsLt token.liquidity f.min_liquidity then false
  else if jsTruthy f.max_liquidity && jsGt token.liquidity f.max_liquidity then false
  else true

/-- JS-`Map` write with insertion-order preservation: replace the value
at an existing key, else append. -/
def mapSet (m : List (String × Bool)) (k : String) (v : Bool) : List (String × Bool) :=
  match m with
  | [] => [(k, v)]
  | (k0, v0) :: rest => if k0 = k then (k0, v) :: rest else (k0, v0) :: mapSet rest k v

/-- JS-`Map` read: `undefined` for a missing key. -/
def mapGet (m : List (String × Bool)) (k : String) : Option Bool :=
  match m with
  | [] => none
  | (k0, v0) :: rest => if k0 = k then some v0 else mapGet rest k

/-- The shared mutable state of `HeartBot` that the monitoring loop and
the enable/disable command surface touch: the `monitoringEnabled` map,
whether `monitoringIntervalId` is set, the `isInitialized` and
`isRunning` flags, and the owned `PumpFunService` state. -/
structure BotState where
  monitoringEnabled : List (String × Bool)
  monitoringIntervalActive : Bool
  isInitialized : Bool
  isRunning : Bool
  pumpFun : PumpFunState
deriving DecidableEq

/-- The users with monitoring enabled, in map order (the cycle computes
this as entries filtered on the value). -/
def activeUsers (s : BotState) : List String :=
  (s.monitoringEnabled.filter (fun e => e.2)).map (fun e => e.1)

/-- `HeartBot.getActiveMonitoringCount()`: the number of map values that
are `true`. -/
def getActiveMonitoringCount (s : BotState) : ℕ :=
  (s.monitoringEnabled.filter (fun e => e.2)).length

/-- `HeartBot.isMonitoringEnabled` / the truthiness test
`this.monitoringEnabled.get(userId)` used inside the cycle. -/
def isEnabled (s : BotState) (u : String) : Bool :=
  mapGet s.monitoringEnabled u == some true

/-- `startTokenMonitoring` (second revision): `cleanup()` clears any
existing interval, the freshness cursor is reset, and if at least one
user is enabled the interval is installed and `isRunning` set (the
intermediate `if (this.monitoringIntervalId) return` is dead after
`cleanup`).  The second component counts `resetLastCheckedTimestamp`
calls performed. -/
def startTokenMonitoring (s : BotState) : BotState × ℕ :=
  let s1 : BotState := { s with monitoringIntervalActive := false }
  let s2 : BotState := { s1 with pumpFun := resetLastCheckedTimestamp s1.pumpFun }
  if activeUsers s2 = [] then (s2, 1)
  else ({ s2 with isRunning := true, monitoringIntervalActive := true }, 1)

/-- `startMonitoringLoop`: refuses to start before initialization. -/
def startMonitoringLoop (s : BotState) : BotState × ℕ :=
  if !s.isInitialized then (s, 0) else startTokenMonitoring s

/-- `enableMonitoring(userId)` (second revision): early return when the
map already holds `true` for the user; otherwise set the flag and start
the monitoring loop when no interval is installed.  The second component
counts freshness-cursor resets performed by the call. -/
def enableMonitoring (s : BotState) (userId : String) : BotState × ℕ :=
  if mapGet s.monitoringEnabled userId = some true then (s, 0)
  else
    let s1 : BotState := { s with monitoringEnabled := mapSet s.monitoringEnabled userId true }
    if s1.monitoringIntervalActive then (s1, 0)
    else startMonitoringLoop s1

/-- The outcome of one `getNewTokens` fetch attempt as observed by the
cycle: a successful HTTP response carrying the raw batch, an HTTP 429
with the optional `retry-after` header value in seconds, or any other
thrown error. -/
inductive FetchOutcome where
  | success (raws : List RawToken)
  | rateLimited (retryAfter : Option ℚ)
  | otherError
deriving DecidableEq

/-- Whether an attempt outcome is a thrown error. -/
def FetchOutcome.isFailure : FetchOutcome → Bool
  | .success _ => false
  | _ => true

/-- Result of the retry loop: a fetched raw batch, or abandonment of the
tick; either way the number of attempts consumed. -/
inductive RetryResult where
  | fetched (raws : List RawToken) (attempts : ℕ)
  | abandoned (attempts : ℕ)
deriving DecidableEq

/-- Attempts consumed by the retry loop. -/
def RetryResult.attempts : RetryResult → ℕ
  | .fetched _ n => n
  | .abandoned n => n

/-- The sleep performed on a 429: `(retry-after header or 1) * 1000`
milliseconds plus a 1000 ms buffer. -/
def rateLimitSleep (ra : Option ℚ) : ℚ :=
  ra.getD 1 * 1000 + 1000

/-- The fetch retry loop of the monitoring cycle (`while (retryCount <
maxRetries)` with `maxRetries = 3`, `baseDelay = 2000`): on success break
with the batch; on a 429 sleep `rateLimitSleep` and retry; on any other
error return abandoning the tick when this was the third failure, else
sleep `baseDelay * 2 ^ (retryCount - 1)` (with `retryCount` the number of
failures so far) and retry.  `fuel` is `maxRetries - retryCount`; the
recorded list is the sequence of sleeps performed. -/
def retryGo (outcomes : ℕ → FetchOutcome) (retryCount : ℕ) : ℕ → RetryResult × List ℚ
  | 0 => (.abandoned retryCount, [])
  | fuel + 1 =>
      match outcomes retryCount with
      | .success raws => (.fetched raws (retryCount + 1), [])
      | .rateLimited ra =>
          let r := retryGo outcomes (retryCount + 1) fuel
          (r.1, rateLimitSleep ra :: r.2)
      | .otherError =>
          if retryCount + 1 = 3 then (.abandoned (retryCount + 1), [])
          else
            let r := retryGo outcomes (retryCount + 1) fuel
            (r.1, (2000 * 2 ^ (retryCount + 1 - 1) : ℚ) :: r.2)

/-- The retry loop as entered by the cycle (`retryCount = 0`, 3 attempts
allowed). -/
def fetchWithRetry (outcomes : ℕ → FetchOutcome) : RetryResult × List ℚ :=
  retryGo outcomes 0 3

/-- The per-token market-cap fallback inside the cycle: when `marketCap`
is falsy while the `priceUsd` string and `liquidity` are truthy, estimate
`marketCap` as `liquidity * 2`. -/
def cycleDerive (token : TokenData) : TokenData :=
  if !jsTruthy token.marketCap && strNumTruthy token.priceUsd
      && jsTruthy token.liquidity then
    { token with marketCap := some (token.liquidity.getD 0 * 2) }
  else token

/-- Whether the cycle skips a filter as requiring Dexscreener data: any
of the holders, dev-tokens or contract-age bounds truthy. -/
def requiresDexscreener (f : FilterRow) : Bool :=
  jsTruthy f.min_holders || jsTruthy f.max_holders
    || jsTruthy f.max_dev_tokens || jsTruthy f.min_contract_age

/-- The per-token body of the cycle (second revision, lines after the
filter query): apply the market-cap fallback, drop the token when
`liquidity` or `marketCap` is falsy, then for each filter emit one alert
`(user_id, token address)` when the owner has monitoring enabled, the
filter needs no Dexscreener data, and `matchesFilter` holds. -/
def processToken (enabled : String → Bool) (filters : List FilterRow)
    (token : TokenData) : List (String × String) :=
  let token := cycleDerive token
  if !jsTruthy token.liquidity then []
  else if !jsTruthy token.marketCap then []
  else
    filters.foldr (fun f acc =>
      if !enabled f.user_id then acc
      else if requiresDexscreener f then acc
      else if Telegram.matchesFilter token f then (f.user_id, token.address) :: acc
      else acc) []

/-- The alerts a cycle emits for a list of new tokens. -/
def cycleAlerts (enabled : String → Bool) (filters : List FilterRow)
    (tokens : List TokenData) : List (String × String) :=
  (tokens.map (processToken enabled filters)).flatten

/-- What one firing of the monitoring interval produced: the bot state
afterwards, how many fetch attempts were made, the sleeps performed by
the retry loop, and the alert requests emitted. -/
structure TickResult where
  state : BotState
  fetchAttempts : ℕ
  delays : List ℚ
  alerts : List (String × String)
deriving DecidableEq

/-- One firing of the monitoring interval (second revision): skip when
`isRunning` is false; skip (without fetching) when no user has
monitoring enabled; otherwise run the fetch retry loop — on abandonment
the tick ends with no alerts; on success `getNewTokens` is applied for
the first active user, and each new token is processed against the
active filters loaded from the database (`filters`; an empty load ends
the tick). -/
def runTick (s : BotState) (outcomes : ℕ → FetchOutcome)
    (filters : List FilterRow) : TickResult :=
  if !s.isRunning then ⟨s, 0, [], []⟩
  else if activeUsers s = [] then ⟨s, 0, [], []⟩
  else
    let r := fetchWithRetry outcomes
    match r.1 with
    | .abandoned n => ⟨s, n, r.2, []⟩
    | .fetched raws n =>
        let pr := getNewTokensSvc s.pumpFun ((activeUsers s).headD "") raws
        let s1 : BotState := { s with pumpFun := pr.1 }
        if pr.2 = [] then ⟨s1, n, r.2, []⟩
        else if filters = [] then ⟨s1, n, r.2, []⟩
        else ⟨s1, n, r.2, cycleAlerts (isEnabled s1) filters pr.2⟩

/-! ## Helper lemmas -/

/-- A batch in which every address-bearing raw token is already seen
leaves the seen-set unchanged and emits nothing. -/
lemma getNewTokensLoop_all_seen (seen : List String) (raws : List RawToken)
    (h : ∀ r ∈ raws, ∀ b, r.address = some b → b ∈ seen) :
    getNewTokensLoop seen raws = (seen, []) := by
  induction raws with
  | nil => rfl
  | cons r rs ih =>
      have hr : getNewTokensStep seen r = (seen, none) := by
        unfold getNewTokensStep
        cases ha : r.address with
        | none => rfl
        | some b =>
            by_cases hb : b = ""
            · simp [hb]
            · simp [hb, h r (by simp) b ha]
      unfold getNewTokensLoop
      rw [hr]
      have := ih (fun r hr b hb => h r (List.mem_cons_of_mem _ hr) b hb)
      simp [this]

/-- The seen-set only ever grows: every old element survives a batch. -/
lemma getNewTokensLoop_seen_subset (seen : List String) (raws : List RawToken) :
    seen ⊆ (getNewTokensLoop seen raws).1 := by
  induction raws generalizing seen with
  | nil => exact fun a ha => ha
  | cons r rs ih =>
      intro a ha
      unfold getNewTokensLoop
      have hstep : a ∈ (getNewTokensStep seen r).1 := by
        unfold getNewTokensStep
        cases r.address with
        | none => exact ha
        | some b =>
            by_cases hb : b = ""
            · simpa [hb] using ha
            · by_cases hbs : b ∈ seen
              · simpa [hb, hbs] using ha
              · simp only [hb, hbs]
                simpa using Or.inr ha
      exact ih _ hstep

/-- The seen-set never shrinks across a batch. -/
lemma getNewTokensLoop_seen_length (seen : List String) (raws : List RawToken) :
    seen.length ≤ (getNewTokensLoop seen raws).1.length := by
  induction raws generalizing seen with
  | nil => exact Nat.le_refl _
  | cons r rs ih =>
      unfold getNewTokensLoop
      have hstep : seen.length ≤ (getNewTokensStep seen r).1.length := by
        unfold getNewTokensStep
        cases r.address with
        | none => exact Nat.le_refl _
        | some b =>
            by_cases hb : b = ""
            · simp [hb]
            · by_cases hbs : b ∈ seen
              · simp [hb, hbs]
              · simp [hb, hbs]
      exact Nat.le_trans hstep (ih _)

/-- Reading the head scope of the record. -/
lemma storeGet_cons (k : String) (w : List String)
    (tail : List (String × List String)) (u : String) :
    storeGet ((k, w) :: tail) u = if u = k then w else storeGet tail u := by
  by_cases h : u = k
  · simp [storeGet, List.lookup, h]
  · have hb : (u == k) = false := beq_eq_false_iff_ne.mpr h
    simp [storeGet, List.lookup, h, hb]

/-- Writing a scope and reading it back yields the written set. -/
lemma storeGet_storeSet (store : List (String × List String)) (u : String)
    (v : List String) : storeGet (storeSet store u v) u = v := by
  induction store with
  | nil => simp [storeSet, storeGet, List.lookup]
  | cons kv rest ih =>
      obtain ⟨k, w⟩ := kv
      by_cases hk : k = u
      · simp [storeSet, hk, storeGet_cons]
      · have hk2 : ¬ u = k := fun h => hk h.symm
        simp [storeSet, hk, storeGet_cons, hk2, ih]

/-! ## C2 — dedup idempotence -/

/-- C2: for a polling scope, a raw event whose address is already in the
seen-set is skipped by `getNewTokens` with the state unchanged; a freshly
accepted address is added to the seen-set before normalization or any
filter evaluation, so re-processing the same event emits nothing; and a
batch made only of already-seen events yields zero new tokens and hence
zero alert requests from the monitoring cycle. -/
theorem C2_dedup_idempotent (seen : List String) (t : RawToken) (a : String)
    (raws : List RawToken) (enabled : String → Bool) (filters : List FilterRow) :
    (t.address = some a → a ∈ seen → getNewTokensStep seen t = (seen, none))
    ∧ (t.address = some a → a ≠ "" → a ∉ seen →
        (getNewTokensStep seen t).1 = a :: seen)
    ∧ (t.address = some a → a ≠ "" →
        getNewTokensStep (getNewTokensStep seen t).1 t
          = ((getNewTokensStep seen t).1, none))
    ∧ ((∀ r ∈ raws, ∀ b, r.address = some b → b ∈ seen) →
        (getNewTokensLoop seen raws).2 = []
        ∧ cycleAlerts enabled filters (getNewTokensLoop seen raws).2 = []) := by
  refine ⟨?_, ?_, ?_, ?_⟩
  · intro ha hmem
    unfold getNewTokensStep
    rw [ha]
    by_cases hb : a = "" <;> simp [hb, hmem]
  · intro ha hne hmem
    unfold getNewTokensStep
    rw [ha]
    simp [hne, hmem]
  · intro ha hne
    by_cases hmem : a ∈ seen
    · have h1 : getNewTokensStep seen t = (seen, none) := by
        unfold getNewTokensStep
        rw [ha]
        simp [hne, hmem]
      rw [h1]
      unfold getNewTokensStep
      rw [ha]
      simp [hne, hmem]
    · have h1 : (getNewTokensStep seen t).1 = a :: seen := by
        unfold getNewTokensStep
        rw [ha]
        simp [hne, hmem]
      rw [h1]
      unfold getNewTokensStep
      rw [ha]
      simp [hne]
  · intro h
    rw [getNewTokensLoop_all_seen seen raws h]
    exact ⟨rfl, rfl⟩

/-- Concrete instance for C2: a raw token whose address is present and
already seen. -/
def c2raw : RawToken :=
  { address := some "A", tokenAddress := some "A", name := some "N",
    symbol := some "S", priceUsd := .numv 1, liquidity := .numv 5,
    fullyDilutedValuation := .numv 10, timestamp := none }

/-- Witness for C2 at a concrete input: the already-seen address "A" is
skipped, and a batch of only-seen events produces zero alerts. -/
theorem C2_dedup_idempotent_witness :
    getNewTokensStep ["A"] c2raw = (["A"], none)
    ∧ cycleAlerts (fun _ => true) [] (getNewTokensLoop ["A"] [c2raw]).2 = [] := by
  refine ⟨(C2_dedup_idempotent ["A"] c2raw "A" [c2raw] (fun _ => true) []).1 rfl
      (by decide),
    ((C2_dedup_idempotent ["A"] c2raw "A" [c2raw] (fun _ => true) []).2.2.2
      (by decide)).2⟩

/-! ## C3 — cursor advance -/

/-- Concrete state and raw batch for C3: cursor at 0, one valid event
with upstream timestamp 1000. -/
def c3state : PumpFunState := { lastCheckedTimestamp := 0, lastSeenTokens := [] }

/-- A valid raw token carrying upstream timestamp 1000. -/
def c3raw : RawToken :=
  { address := some "A", tokenAddress := some "A", name := some "N",
    symbol := some "S", priceUsd := .numv 1, liquidity := .numv 5,
    fullyDilutedValuation := .numv 10, timestamp := some 1000 }

/-- C3 counterexample: `getNewTokens` processes a non-empty batch whose
maximum observed timestamp is 1000, yet the cursor stays 0 — it is not
advanced to the batch maximum as claimed. -/
theorem C3_cursor_counterexample :
    (getNewTokensSvc c3state "u" [c3raw]).2.length = 1
    ∧ batchMaxTimestamp [c3raw] = 1000
    ∧ (getNewTokensSvc c3state "u" [c3raw]).1.lastCheckedTimestamp = 0
    ∧ (0 : ℤ) ≠ 1000 := by
  refine ⟨by decide, by decide, by decide, by decide⟩

/-- C3 amended: `getNewTokens` never writes the freshness cursor — after
any batch (empty or not) `lastCheckedTimestamp` is unchanged, so the
monotonicity `old ≤ new` holds trivially, but no advance to the batch
maximum happens. -/
theorem C3_cursor_unchanged (s : PumpFunState) (u : String) (raws : List RawToken) :
    (getNewTokensSvc s u raws).1.lastCheckedTimestamp = s.lastCheckedTimestamp
    ∧ s.lastCheckedTimestamp ≤ (getNewTokensSvc s u raws).1.lastCheckedTimestamp := by
  exact ⟨rfl, le_refl _⟩

/-! ## C6 — quiescence -/

/-- C6: when no subscriber has monitoring enabled, a tick performs no
fetch attempt, emits no alert requests, and leaves the state untouched. -/
theorem C6_quiescence (s : BotState) (outcomes : ℕ → FetchOutcome)
    (filters : List FilterRow) (h : getActiveMonitoringCount s = 0) :
    runTick s outcomes filters = ⟨s, 0, [], []⟩ := by
  have hf : s.monitoringEnabled.filter (fun e => e.2) = [] :=
    List.length_eq_zero.mp h
  have ha : activeUsers s = [] := by simp [activeUsers, hf]
  unfold runTick
  rw [ha]
  by_cases hr : s.isRunning <;> simp [hr]

/-- Concrete state for the C6 witness: one subscriber present but
disabled, the loop otherwise live. -/
def c6state : BotState :=
  { monitoringEnabled := [("u1", false)], monitoringIntervalActive := true,
    isInitialized := true, isRunning := true,
    pumpFun := { lastCheckedTimestamp := 0, lastSeenTokens := [] } }

/-- Witness for C6: with the only subscriber disabled, the tick makes no
fetch attempt and emits nothing. -/
theorem C6_quiescence_witness :
    runTick c6state (fun _ => FetchOutcome.otherError) [] = ⟨c6state, 0, [], []⟩ :=
  C6_quiescence c6state (fun _ => FetchOutcome.otherError) [] (by decide)

/-! ## C8 — bounded seen-set -/

/-- Empty service state for the C8 counterexample. -/
def c8state : PumpFunState := { lastCheckedTimestamp := 0, lastSeenTokens := [] }

/-- First observed token, at upstream time 0. -/
def c8rawA : RawToken :=
  { address := some "A", tokenAddress := some "A", name := some "N",
    symbol := some "S", priceUsd := .numv 1, liquidity := .numv 5,
    fullyDilutedValuation := .numv 10, timestamp := some 0 }

/-- Second observed token, two hours (7200000 ms) later. -/
def c8rawB : RawToken :=
  { address := some "B", tokenAddress := some "B", name := some "N",
    symbol := some "S", priceUsd := .numv 1, liquidity := .numv 5,
    fullyDilutedValuation := .numv 10, timestamp := some 7200000 }

/-- C8 counterexample: after a poll at time 0 accepts "A" and a poll two
hours later accepts "B", the seen-set still holds "A" — no retention
eviction (default claimed: 1 hour) and no capacity bound exists; the set
holds every address ever accepted. -/
theorem C8_counterexample :
    "A" ∈ storeGet
        (getNewTokensSvc (getNewTokensSvc c8state "u" [c8rawA]).1 "u"
          [c8rawB]).1.lastSeenTokens "u"
    ∧ (storeGet
        (getNewTokensSvc (getNewTokensSvc c8state "u" [c8rawA]).1 "u"
          [c8rawB]).1.lastSeenTokens "u").length = 2 := by
  refine ⟨by decide, by decide⟩

/-- C8 amended: the per-scope seen-set only grows — every previously
seen address survives every later poll and its size never decreases, both
at the loop level and through the per-user store; it is bounded only by
the number of distinct addresses ever accepted. -/
theorem C8_seen_set_monotone (s : PumpFunState) (u : String)
    (seen : List String) (raws : List RawToken) :
    seen ⊆ (getNewTokensLoop seen raws).1
    ∧ seen.length ≤ (getNewTokensLoop seen raws).1.length
    ∧ storeGet s.lastSeenTokens u
        ⊆ storeGet (getNewTokensSvc s u raws).1.lastSeenTokens u := by
  refine ⟨getNewTokensLoop_seen_subset seen raws,
    getNewTokensLoop_seen_length seen raws, ?_⟩
  show storeGet s.lastSeenTokens u ⊆ _
  unfold getNewTokensSvc
  simp only
  rw [storeGet_storeSet]
  exact getNewTokensLoop_seen_subset _ raws

/-! ## C10 — zero-valued bounds behave as unset -/

/-- C10: because every numeric bound is guarded by a JavaScript
truthiness test, a stored bound of `0` is indistinguishable from an
unset bound — in the Telegram `matchesFilter` for all eight numeric
columns, and likewise in the first-revision `HeartBot.matchesFilter` for
its four columns; in particular a zero bound never fails a token. -/
theorem C10_zero_bound_unset (token : TokenData) (f : FilterRow) :
    (Telegram.matchesFilter token { f with min_market_cap := some 0 }
      = Telegram.matchesFilter token { f with min_market_cap := none })
    ∧ (Telegram.matchesFilter token { f with max_market_cap := some 0 }
      = Telegram.matchesFilter token { f with max_market_cap := none })
    ∧ (Telegram.matchesFilter token { f with min_liquidity := some 0 }
      = Telegram.matchesFilter token { f with min_liquidity := none })
    ∧ (Telegram.matchesFilter token { f with max_liquidity := some 0 }
      = Telegram.matchesFilter token { f with max_liquidity := none })
    ∧ (Telegram.matchesFilter token { f with min_holders := some 0 }
      = Telegram.matchesFilter token { f with min_holders := none })
    ∧ (Telegram.matchesFilter token { f with max_holders := some 0 }
      = Telegram.matchesFilter token { f with max_holders := none })
    ∧ (Telegram.matchesFilter token { f with max_dev_tokens := some 0 }
      = Telegram.matchesFilter token { f with max_dev_tokens := none })
    ∧ (Telegram.matchesFilter token { f with min_contract_age := some 0 }
      = Telegram.matchesFilter token { f with min_contract_age := none })
    ∧ (LegacyBot.matchesFilter token { f with min_market_cap := some 0 }
      = LegacyBot.matchesFilter token { f with min_market_cap := none })
    ∧ (LegacyBot.matchesFilter token { f with max_market_cap := some 0 }
      = LegacyBot.matchesFilter token { f with max_market_cap := none })
    ∧ (LegacyBot.matchesFilter token { f with min_liquidity := some 0 }
      = LegacyBot.matchesFilter token { f with min_liquidity := none })
    ∧ (LegacyBot.matchesFilter token { f with max_liquidity := some 0 }
      = LegacyBot.matchesFilter token { f with max_liquidity := none }) := by
  refine ⟨?_, ?_, ?_, ?_, ?_, ?_, ?_, ?_, ?_, ?_, ?_, ?_⟩ <;>
    simp [Telegram.matchesFilter, LegacyBot.matchesFilter, jsTruthy]

/-! ## C4 — fetch retry policy -/

/-- The sleep the claimed policy prescribes after a failed attempt (0
indexed): the rate-limit sleep for a 429, else the doubling backoff
`2000 * 2 ^ attempt` ms. -/
def claimedBackoff : ℕ → FetchOutcome → ℚ
  | _, .rateLimited ra => rateLimitSleep ra
  | k, _ => 2000 * 2 ^ k

/-- The sleep performed after the third failure: present only on a 429
(the generic-error arm returns before sleeping when retries are
exhausted). -/
def claimedThird : FetchOutcome → List ℚ
  | .rateLimited ra => [rateLimitSleep ra]
  | _ => []

/-- The retry loop consumes at most `retryCount + fuel` attempts. -/
lemma retryGo_attempts_le (outcomes : ℕ → FetchOutcome) (rc fuel : ℕ) :
    (retryGo outcomes rc fuel).1.attempts ≤ rc + fuel := by
  induction fuel generalizing rc with
  | zero => simp [retryGo, RetryResult.attempts]
  | succ n ih =>
      unfold retryGo
      cases outcomes rc with
      | success raws => simp [RetryResult.attempts]
      | rateLimited ra =>
          have := ih (rc + 1)
          simp only [RetryResult.attempts] at this ⊢
          omega
      | otherError =>
          by_cases h3 : rc + 1 = 3
          · simp [h3, RetryResult.attempts]
            omega
          · have := ih (rc + 1)
            simp only [h3, if_false, RetryResult.attempts] at this ⊢
            omega

/-- When the first three attempts all fail, the retry loop abandons the
tick after exactly 3 attempts, and the sleeps performed are the
rate-limit sleep or the doubling backoff per attempt (no sleep after the
third generic failure). -/
lemma fetchWithRetry_allfail (outcomes : ℕ → FetchOutcome)
    (h0 : (outcomes 0).isFailure = true) (h1 : (outcomes 1).isFailure = true)
    (h2 : (outcomes 2).isFailure = true) :
    (fetchWithRetry outcomes).1 = RetryResult.abandoned 3
    ∧ (fetchWithRetry outcomes).2
        = claimedBackoff 0 (outcomes 0) :: claimedBackoff 1 (outcomes 1)
            :: claimedThird (outcomes 2) := by
  unfold fetchWithRetry
  cases o0 : outcomes 0 with
  | success raws => simp [FetchOutcome.isFailure, o0] at h0
  | rateLimited ra0 =>
      cases o1 : outcomes 1 with
      | success raws => simp [FetchOutcome.isFailure, o1] at h1
      | rateLimited ra1 =>
          cases o2 : outcomes 2 with
          | success raws => simp [FetchOutcome.isFailure, o2] at h2
          | rateLimited ra2 =>
              simp [retryGo, o0, o1, o2, claimedBackoff, claimedThird]
          | otherError =>
              simp [retryGo, o0, o1, o2, claimedBackoff, claimedThird]
      | otherError =>
          cases o2 : outcomes 2 with
          | success raws => simp [FetchOutcome.isFailure, o2] at h2
          | rateLimited ra2 =>
              simp [retryGo, o0, o1, o2, claimedBackoff, claimedThird]
          | otherError =>
              simp [retryGo, o0, o1, o2, claimedBackoff, claimedThird]
  | otherError =>
      cases o1 : outcomes 1 with
      | success raws => simp [FetchOutcome.isFailure, o1] at h1
      | rateLimited ra1 =>
          cases o2 : outcomes 2 with
          | success raws => simp [FetchOutcome.isFailure, o2] at h2
          | rateLimited ra2 =>
              simp [retryGo, o0, o1, o2, claimedBackoff, claimedThird]
          | otherError =>
              simp [retryGo, o0, o1, o2, claimedBackoff, claimedThird]
      | otherError =>
          cases o2 : outcomes 2 with
          | success raws => simp [FetchOutcome.isFailure, o2] at h2
          | rateLimited ra2 =>
              simp [retryGo, o0, o1, o2, claimedBackoff, claimedThird]
          | otherError =>
              simp [retryGo, o0, o1, o2, claimedBackoff, claimedThird]

/-- C4: the feed fetch is attempted at most 3 times per tick; a 429
sleeps the upstream retry-after (default 1 s) plus the fixed 1 s margin,
any other error sleeps the doubling backoff from base 2000 ms; when all
three attempts fail the tick is abandoned with zero alert requests and
the bot state (in particular the enabled map) unchanged. -/
theorem C4_retry_policy (s : BotState) (outcomes : ℕ → FetchOutcome)
    (filters : List FilterRow)
    (h0 : (outcomes 0).isFailure = true) (h1 : (outcomes 1).isFailure = true)
    (h2 : (outcomes 2).isFailure = true) :
    (∀ oc : ℕ → FetchOutcome, (fetchWithRetry oc).1.attempts ≤ 3)
    ∧ (fetchWithRetry outcomes).1 = RetryResult.abandoned 3
    ∧ (fetchWithRetry outcomes).2
        = claimedBackoff 0 (outcomes 0) :: claimedBackoff 1 (outcomes 1)
            :: claimedThird (outcomes 2)
    ∧ (runTick s outcomes filters).alerts = []
    ∧ (runTick s outcomes filters).state = s
    ∧ (runTick s outcomes filters).fetchAttempts ≤ 3 := by
  obtain ⟨hab, hdel⟩ := fetchWithRetry_allfail outcomes h0 h1 h2
  have hle : ∀ oc : ℕ → FetchOutcome, (fetchWithRetry oc).1.attempts ≤ 3 :=
    fun oc => retryGo_attempts_le oc 0 3
  have htick : (runTick s outcomes filters).alerts = []
      ∧ (runTick s outcomes filters).state = s
      ∧ (runTick s outcomes filters).fetchAttempts ≤ 3 := by
    unfold runTick
    by_cases hr : s.isRunning
    · by_cases ha : activeUsers s = []
      · simp [hr, ha]
      · simp [hr, ha, hab]
    · simp [hr]
  exact ⟨hle, hab, hdel, htick.1, htick.2.1, htick.2.2⟩

/-- Live bot state with one enabled subscriber, for the C4 witness. -/
def c4state : BotState :=
  { monitoringEnabled := [("u1", true)], monitoringIntervalActive := true,
    isInitialized := true, isRunning := true,
    pumpFun := { lastCheckedTimestamp := 0, lastSeenTokens := [] } }

/-- Concrete attempt outcomes for the C4 witness: a 429 with retry-after
5 s, then generic errors. -/
def c4outcomes : ℕ → FetchOutcome :=
  fun k => if k = 0 then FetchOutcome.rateLimited (some 5) else FetchOutcome.otherError

/-- Witness for C4 at a concrete state and outcome sequence. -/
theorem C4_retry_policy_witness :
    (c4outcomes 0).isFailure = true
    ∧ (runTick c4state c4outcomes []).alerts = []
    ∧ (runTick c4state c4outcomes []).state = c4state :=
  ⟨by decide,
   (C4_retry_policy c4state c4outcomes [] (by decide) (by decide) (by decide)).2.2.2.1,
   (C4_retry_policy c4state c4outcomes [] (by decide) (by decide) (by decide)).2.2.2.2.1⟩

/-! ## C5 — enable is idempotent -/

/-- Setting a key and reading it back. -/
lemma mapGet_mapSet_self (m : List (String × Bool)) (k : String) (v : Bool) :
    mapGet (mapSet m k v) k = some v := by
  induction m with
  | nil => simp [mapSet, mapGet]
  | cons kv rest ih =>
      obtain ⟨k0, v0⟩ := kv
      by_cases hk : k0 = k
      · simp [mapSet, mapGet, hk]
      · simp [mapSet, mapGet, hk, ih]

/-- After `mapSet m u true` the pair `(u, true)` is in the map. -/
lemma mem_mapSet_true (m : List (String × Bool)) (u : String) :
    (u, true) ∈ mapSet m u true := by
  induction m with
  | nil => simp [mapSet]
  | cons kv rest ih =>
      obtain ⟨k0, v0⟩ := kv
      by_cases hk : k0 = u
      · simp [mapSet, hk]
      · simp [mapSet, hk]
        exact Or.inr ih

/-- Enabling a user that was not enabled grows the number of `true`
entries by exactly one. -/
lemma countTrue_mapSet (m : List (String × Bool)) (u : String)
    (hu : mapGet m u ≠ some true) :
    ((mapSet m u true).filter (fun e => e.2)).length
      = (m.filter (fun e => e.2)).length + 1 := by
  induction m with
  | nil => simp [mapSet]
  | cons kv rest ih =>
      obtain ⟨k0, v0⟩ := kv
      by_cases hk : k0 = u
      · have hv0 : v0 = false := by
          by_contra hv
          have : v0 = true := eq_true_of_ne_false hv
          exact hu (by simp [mapGet, hk, this])
        subst hv0
        simp [mapSet, hk, List.filter]
      · have hrest : mapGet rest u ≠ some true := by
          intro h
          exact hu (by simp [mapGet, hk, h])
        cases v0 with
        | false => simp [mapSet, hk, List.filter, ih hrest]
        | true => simp [mapSet, hk, List.filter, ih hrest]

/-- `startTokenMonitoring` on a state with at least one active user:
exactly one cursor reset, interval installed, `isRunning` set. -/
lemma startTokenMonitoring_spec (s : BotState) (hne : activeUsers s ≠ []) :
    startTokenMonitoring s
      = ({ s with
            monitoringIntervalActive := true
            isRunning := true
            pumpFun := resetLastCheckedTimestamp s.pumpFun }, 1) := by
  have hact : activeUsers { s with
      monitoringIntervalActive := false
      pumpFun := resetLastCheckedTimestamp s.pumpFun } = activeUsers s := rfl
  unfold startTokenMonitoring
  simp only []
  rw [hact, if_neg hne]

/-- A state whose map was just set to `true` for `u` has active users. -/
lemma activeUsers_mapSet_ne (st : BotState) (m : List (String × Bool)) (u : String)
    (hm : st.monitoringEnabled = mapSet m u true) : activeUsers st ≠ [] := by
  intro h
  have hmem : u ∈ activeUsers st := by
    simp only [activeUsers, hm]
    exact List.mem_map.mpr ⟨(u, true), List.mem_filter.mpr ⟨mem_mapSet_true _ u, rfl⟩, rfl⟩
  rw [h] at hmem
  exact List.not_mem_nil _ hmem

/-- `startTokenMonitoring_spec` specialised to a freshly enabled map. -/
lemma startTokenMonitoring_mapSet (st : BotState) (m : List (String × Bool)) (u : String)
    (hm : st.monitoringEnabled = mapSet m u true) :
    startTokenMonitoring st
      = ({ st with
            monitoringIntervalActive := true
            isRunning := true
            pumpFun := resetLastCheckedTimestamp st.pumpFun }, 1) :=
  startTokenMonitoring_spec st (activeUsers_mapSet_ne st m u hm)

/-- C5: enabling a not-yet-enabled subscriber (initialized bot, no
interval installed) performs exactly one freshness-cursor reset and a
second consecutive `enableMonitoring` call is a pure no-op (zero resets,
state unchanged); across the two calls `getActiveMonitoringCount`
increases by exactly 1, not 2. -/
theorem C5_enable_idempotent (s : BotState) (u : String)
    (hu : mapGet s.monitoringEnabled u ≠ some true)
    (hinit : s.isInitialized = true)
    (hint : s.monitoringIntervalActive = false) :
    (enableMonitoring s u).2 = 1
    ∧ (enableMonitoring (enableMonitoring s u).1 u).2 = 0
    ∧ (enableMonitoring (enableMonitoring s u).1 u).1 = (enableMonitoring s u).1
    ∧ getActiveMonitoringCount (enableMonitoring (enableMonitoring s u).1 u).1
        = getActiveMonitoringCount s + 1 := by
  have e1 : enableMonitoring s u
      = ({ s with
            monitoringEnabled := mapSet s.monitoringEnabled u true
            monitoringIntervalActive := true
            isRunning := true
            pumpFun := resetLastCheckedTimestamp s.pumpFun }, 1) := by
    unfold enableMonitoring
    rw [if_neg hu]
    simp only [hint]
    unfold startMonitoringLoop
    simp only [hinit, Bool.not_true, Bool.false_eq_true, if_false]
    rw [startTokenMonitoring_mapSet _ s.monitoringEnabled u rfl]
  have e2 : enableMonitoring (enableMonitoring s u).1 u
      = ((enableMonitoring s u).1, 0) := by
    rw [e1]
    unfold enableMonitoring
    rw [if_pos (mapGet_mapSet_self s.monitoringEnabled u true)]
  refine ⟨by rw [e1], by rw [e2], by rw [e2], ?_⟩
  rw [e2]
  simp only [e1]
  show ((mapSet s.monitoringEnabled u true).filter (fun e => e.2)).length
      = (s.monitoringEnabled.filter (fun e => e.2)).length + 1
  exact countTrue_mapSet _ _ hu

/-- Fresh initialized bot state (no subscribers, no interval, stale
cursor 5) for the C5 witness. -/
def c5state : BotState :=
  { monitoringEnabled := [], monitoringIntervalActive := false,
    isInitialized := true, isRunning := false,
    pumpFun := { lastCheckedTimestamp := 5, lastSeenTokens := [] } }

/-- Witness for C5: enabling "u1" twice from the fresh state resets the
cursor once, is a no-op the second time, and raises the active count by
exactly one. -/
theorem C5_enable_idempotent_witness :
    mapGet c5state.monitoringEnabled "u1" ≠ some true
    ∧ (enableMonitoring c5state "u1").2 = 1
    ∧ (enableMonitoring (enableMonitoring c5state "u1").1 "u1").2 = 0
    ∧ getActiveMonitoringCount (enableMonitoring (enableMonitoring c5state "u1").1 "u1").1
        = getActiveMonitoringCount c5state + 1 :=
  ⟨by decide,
   (C5_enable_idempotent c5state "u1" (by decide) rfl rfl).1,
   (C5_enable_idempotent c5state "u1" (by decide) rfl rfl).2.1,
   (C5_enable_idempotent c5state "u1" (by decide) rfl rfl).2.2.2⟩

/-! ## C7 / C9 — normalization gate and marketCap derivation -/

/-- Inversion of a successful normalization: the parsed price and
liquidity are carried into the token, and `marketCap` is the parsed
`fullyDilutedValuation` when that raw field is truthy, else the product
of the parsed price and liquidity when both are nonzero, else `0`. -/
lemma normalizeToken_inv (t : RawToken) (td : TokenData)
    (hn : normalizeToken t = some td) :
    ∃ p l f, t.priceUsd.parseFloat = some p ∧ t.liquidity.parseFloat = some l
      ∧ td.priceUsd = some p ∧ td.liquidity = some l ∧ td.marketCap = some f
      ∧ ((t.fullyDilutedValuation.truthy = true
            ∧ t.fullyDilutedValuation.parseFloat = some f)
         ∨ (t.fullyDilutedValuation.truthy = false
            ∧ f = (if p ≠ 0 ∧ l ≠ 0 then p * l else 0))) := by
  unfold normalizeToken at hn
  cases hA : (jsStrTruthy t.tokenAddress && jsStrTruthy t.name && jsStrTruthy t.symbol) with
  | false => rw [hA] at hn; simp at hn
  | true =>
  rw [hA] at hn
  cases hB : (t.priceUsd.truthy && t.liquidity.truthy) with
  | false => rw [hB] at hn; simp at hn
  | true =>
  rw [hB] at hn
  simp only [Bool.not_true, Bool.false_eq_true, if_false] at hn
  rcases hp : t.priceUsd.parseFloat with _ | p <;> rw [hp] at hn
  · simp at hn
  rcases hl : t.liquidity.parseFloat with _ | l <;> rw [hl] at hn
  · simp at hn
  refine ⟨p, l, ?_⟩
  cases hF : t.fullyDilutedValuation.truthy with
  | true =>
      rw [hF, if_pos (rfl : (true : Bool) = true)] at hn
      rcases hf : t.fullyDilutedValuation.parseFloat with _ | f <;> rw [hf] at hn
      · simp at hn
      · injection hn with h
        subst h
        exact ⟨f, rfl, rfl, rfl, rfl, rfl, Or.inl ⟨rfl, rfl⟩⟩
  | false =>
      rw [hF] at hn
      simp only [Bool.false_eq_true, if_false] at hn
      by_cases hc : p ≠ 0 ∧ l ≠ 0
      · have hg : (jsTruthy (some p) && jsTruthy (some l)) = true := by
          simp [jsTruthy, hc.1, hc.2]
        rw [hg, if_pos (rfl : (true : Bool) = true)] at hn
        injection hn with h
        subst h
        refine ⟨p * l, rfl, rfl, rfl, rfl, by simp, Or.inr ⟨rfl, ?_⟩⟩
        rw [if_pos hc]
      · have hg : (jsTruthy (some p) && jsTruthy (some l)) = false := by
          rcases not_and_or.mp hc with hc1 | hc1
          · simp [jsTruthy, not_not.mp (by simpa using hc1)]
          · simp [jsTruthy, not_not.mp (by simpa using hc1)]
        rw [hg] at hn
        simp only [Bool.false_eq_true, if_false] at hn
        injection hn with h
        subst h
        exact ⟨0, rfl, rfl, rfl, rfl, rfl, Or.inr ⟨rfl, by rw [if_neg hc]⟩⟩

/-- The market-cap fallback never touches the liquidity field. -/
lemma cycleDerive_liquidity (td : TokenData) :
    (cycleDerive td).liquidity = td.liquidity := by
  unfold cycleDerive
  split_ifs <;> rfl

/-- The cycle drops any token whose liquidity is `0` or `undefined`
before touching the filter list: zero alerts for it. -/
lemma processToken_zero_liquidity (enabled : String → Bool)
    (filters : List FilterRow) (td : TokenData)
    (h : td.liquidity = some 0 ∨ td.liquidity = none) :
    processToken enabled filters td = [] := by
  unfold processToken
  rcases h with h | h <;>
    simp [cycleDerive_liquidity, h, jsTruthy]

/-- C7 (amended): a raw event with a falsy `address` is never emitted; a
falsy (absent, numeric-zero, empty-string) or unparseable liquidity is
discarded during normalization; and any event that does survive
normalization with a zero parsed liquidity (possible for a truthy
liquidity string such as "0") is still dropped by the monitoring cycle
before any filter evaluation, producing zero alert requests regardless
of the filter set. -/
theorem C7_normalization_gate (seen : List String) (t : RawToken)
    (enabled : String → Bool) (filters : List FilterRow) :
    (jsStrTruthy t.address = false → (getNewTokensStep seen t).2 = none)
    ∧ (t.liquidity.truthy = false → normalizeToken t = none)
    ∧ (t.liquidity.parseFloat = none → normalizeToken t = none)
    ∧ (∀ td, normalizeToken t = some td → t.liquidity.parseFloat = some 0 →
        processToken enabled filters td = []) := by
  refine ⟨?_, ?_, ?_, ?_⟩
  · intro h
    unfold getNewTokensStep
    cases ha : t.address with
    | none => rfl
    | some a =>
        have : a = "" := by simpa [jsStrTruthy, ha] using h
        simp [this]
  · intro h
    simp [normalizeToken, h]
  · intro h
    rcases hpp : t.priceUsd.parseFloat with _ | p <;>
      simp [normalizeToken, h, hpp]
  · intro td hn hl0
    obtain ⟨p2, l2, f, hp2, hl2, hprice, hliq, hmc, hor⟩ := normalizeToken_inv t td hn
    rw [hl0] at hl2
    injection hl2 with hle
    subst hle
    exact processToken_zero_liquidity enabled filters td (Or.inl hliq)

/-- A raw event whose liquidity arrives as the truthy string "0". -/
def c7raw : RawToken :=
  { address := some "A", tokenAddress := some "A", name := some "N",
    symbol := some "S", priceUsd := .numv 1, liquidity := .strv true (some 0),
    fullyDilutedValuation := .absent, timestamp := none }

/-- The token the FeedClient emits for `c7raw`: liquidity 0, not
discarded. -/
def c7td : TokenData :=
  { address := "A", name := "N", symbol := "S", priceUsd := some 1,
    marketCap := some 0, liquidity := some 0, fdv := some 0,
    holdersCount := some 0, tradingEnabled := some true,
    contractAge := some 0, devTokensPercentage := some 0 }

/-- C7 counterexample: a zero-liquidity event (string "0") is NOT
discarded during FeedClient normalization — `getNewTokens` emits it —
contradicting the claim that such events never pass normalization. -/
theorem C7_counterexample :
    getNewTokensLoop [] [c7raw] = (["A"], [c7td])
    ∧ c7td.liquidity = some 0
    ∧ RawNum.truthy c7raw.liquidity = true := by
  refine ⟨by decide, by decide, by decide⟩

/-- `c7raw` with the dedup address removed. -/
def c7rawNoAddr : RawToken :=
  { c7raw with address := none }

/-- Witness for C7 at concrete inputs: an address-less raw is skipped,
and the zero-liquidity token that passed normalization yields zero
alerts from the cycle. -/
theorem C7_normalization_gate_witness :
    jsStrTruthy c7rawNoAddr.address = false
    ∧ (getNewTokensStep [] c7rawNoAddr).2 = none
    ∧ normalizeToken c7raw = some c7td
    ∧ c7raw.liquidity.parseFloat = some 0
    ∧ processToken (fun _ => true) [] c7td = [] :=
  ⟨by decide,
   (C7_normalization_gate [] c7rawNoAddr (fun _ => true) []).1 (by decide),
   by decide, by decide,
   (C7_normalization_gate [] c7raw (fun _ => true) []).2.2.2 c7td (by decide) (by decide)⟩

/-- C9 (amended): for a normalized event whose upstream object carries
no `fullyDilutedValuation`, the normalized `marketCap` is
`price * liquidity` only when both parsed values are NONZERO (else `0`),
and the value reaching filter evaluation after the cycle fallback is
`price * liquidity` when both are nonzero, else `liquidity * 2` when
liquidity is nonzero, else `0` (such a token is then dropped). -/
theorem C9_marketcap_derivation (t : RawToken) (td : TokenData) (p l : ℚ)
    (hfdv : t.fullyDilutedValuation = RawNum.absent)
    (hp : t.priceUsd.parseFloat = some p)
    (hl : t.liquidity.parseFloat = some l)
    (hn : normalizeToken t = some td) :
    td.marketCap = some (if p ≠ 0 ∧ l ≠ 0 then p * l else 0)
    ∧ (cycleDerive td).marketCap
        = some (if p ≠ 0 ∧ l ≠ 0 then p * l else if l ≠ 0 then l * 2 else 0) := by
  obtain ⟨p2, l2, f, hp2, hl2, hprice, hliq, hmc, hor⟩ := normalizeToken_inv t td hn
  rw [hp] at hp2
  rw [hl] at hl2
  injection hp2 with hpe
  injection hl2 with hle
  subst hpe
  subst hle
  rcases hor with ⟨htr, _⟩ | ⟨_, hf⟩
  · rw [hfdv] at htr
    simp [RawNum.truthy] at htr
  · subst hf
    refine ⟨hmc, ?_⟩
    unfold cycleDerive
    by_cases hc : p ≠ 0 ∧ l ≠ 0
    · have hm : td.marketCap = some (p * l) := by rw [hmc, if_pos hc]
      have hj2 : jsTruthy (some (p * l)) = true := by
        simp [jsTruthy, mul_ne_zero hc.1 hc.2]
      simp [hm, hj2, if_pos hc]
    · have hm : td.marketCap = some 0 := by rw [hmc, if_neg hc]
      by_cases hl0 : l = 0
      · have hjl : jsTruthy td.liquidity = false := by
          rw [hliq]
          simp [jsTruthy, hl0]
        simp [hjl, hm, if_neg hc, hl0]
      · have hjl : jsTruthy td.liquidity = true := by
          rw [hliq]
          simp [jsTruthy, hl0]
        have hjm : jsTruthy td.marketCap = false := by
          rw [hm]
          simp [jsTruthy]
        have hsp : strNumTruthy td.priceUsd = true := by
          rw [hprice]
          simp [strNumTruthy]
        have hp0 : p = 0 := by
          rcases not_and_or.mp hc with h | h
          · exact not_not.mp h
          · exact absurd (not_not.mp h) hl0
        rw [if_pos]
        · simp [hliq, if_neg hc, hl0, hp0]
        · simp [hjm, hjl, hsp]

/-- A raw event with no `fullyDilutedValuation` whose price string "0"
parses to 0 and whose liquidity is 1000. -/
def c9raw : RawToken :=
  { address := some "A", tokenAddress := some "A", name := some "N",
    symbol := some "S", priceUsd := .strv true (some 0), liquidity := .numv 1000,
    fullyDilutedValuation := .absent, timestamp := none }

/-- The normalized token for `c9raw`. -/
def c9td : TokenData :=
  { address := "A", name := "N", symbol := "S", priceUsd := some 0,
    marketCap := some 0, liquidity := some 1000, fdv := some 0,
    holdersCount := some 0, tradingEnabled := some true,
    contractAge := some 0, devTokensPercentage := some 0 }

/-- C9 counterexample: price and liquidity are both present and
parseable (0 and 1000) with no upstream FDV, yet the marketCap reaching
filter evaluation is `liquidity * 2 = 2000`, not
`price * liquidity = 0` — the product rule applies only to NONZERO
parsed values. -/
theorem C9_counterexample :
    normalizeToken c9raw = some c9td
    ∧ c9raw.fullyDilutedValuation = RawNum.absent
    ∧ c9raw.priceUsd.parseFloat = some 0
    ∧ c9raw.liquidity.parseFloat = some 1000
    ∧ (cycleDerive c9td).marketCap = some 2000
    ∧ ((0 : ℚ) * 1000 ≠ 2000) := by
  refine ⟨by decide, rfl, rfl, rfl, ?_, by norm_num⟩
  norm_num [cycleDerive, jsTruthy, strNumTruthy, c9td]

/-- Witness for C9 at the concrete zero-price event. -/
theorem C9_marketcap_derivation_witness :
    c9td.marketCap = some (if (0 : ℚ) ≠ 0 ∧ (1000 : ℚ) ≠ 0 then 0 * 1000 else 0)
    ∧ (cycleDerive c9td).marketCap
        = some (if (0 : ℚ) ≠ 0 ∧ (1000 : ℚ) ≠ 0 then 0 * 1000
                else if (1000 : ℚ) ≠ 0 then 1000 * 2 else 0) :=
  C9_marketcap_derivation c9raw c9td 0 1000 rfl rfl rfl (by decide)

/-! ## C1 — missing-data bounds -/

/-- Peeling lemma for the holders bounds: if the event has no
`holdersCount`, adding holder bounds to a passing spec cannot make it
fail (and the missing-data skip returns `true` outright). -/
lemma C1aux_holders (tok : TokenData) (f : FilterRow) (h0 : tok.holdersCount = none)
    (h1 : Telegram.matchesFilter tok { f with min_holders := none, max_holders := none } = true) :
    Telegram.matchesFilter tok f = true := by
  have jn : jsTruthy (none : Option ℚ) = false := rfl
  simp only [Telegram.matchesFilter, h0, Option.isSome_none, Option.isNone_none,
    Bool.and_false, Bool.false_and, Bool.and_true, jn, Bool.or_self,
    Bool.false_eq_true, if_false] at h1 ⊢
  by_cases hG1 : (jsTruthy f.min_market_cap && tok.marketCap.isSome
      && decide (tok.marketCap.getD 0 < f.min_market_cap.getD 0)) = true
  · rw [if_pos hG1] at h1
    exact absurd h1 (by simp)
  rw [if_neg hG1] at h1 ⊢
  by_cases hG2 : (jsTruthy f.max_market_cap && tok.marketCap.isSome
      && decide (tok.marketCap.getD 0 > f.max_market_cap.getD 0)) = true
  · rw [if_pos hG2] at h1
    exact absurd h1 (by simp)
  rw [if_neg hG2] at h1 ⊢
  by_cases hG3 : (jsTruthy f.min_liquidity && tok.liquidity.isSome
      && decide (tok.liquidity.getD 0 < f.min_liquidity.getD 0)) = true
  · rw [if_pos hG3] at h1
    exact absurd h1 (by simp)
  rw [if_neg hG3] at h1 ⊢
  by_cases hG4 : (jsTruthy f.max_liquidity && tok.liquidity.isSome
      && decide (tok.liquidity.getD 0 > f.max_liquidity.getD 0)) = true
  · rw [if_pos hG4] at h1
    exact absurd h1 (by simp)
  rw [if_neg hG4] at h1 ⊢
  by_cases hH : (jsTruthy f.min_holders || jsTruthy f.max_holders) = true
  · rw [if_pos hH]
  · rw [if_neg hH]
    exact h1

/-- Peeling lemma for the dev-holdings bound with the datum absent. -/
lemma C1aux_dev (tok : TokenData) (f : FilterRow) (h0 : tok.devTokensPercentage = none)
    (h1 : Telegram.matchesFilter tok { f with max_dev_tokens := none } = true) :
    Telegram.matchesFilter tok f = true := by
  have jn : jsTruthy (none : Option ℚ) = false := rfl
  simp only [Telegram.matchesFilter, h0, Option.isSome_none, Option.isNone_none,
    Bool.and_false, Bool.false_and, Bool.and_true, jn, Bool.or_self,
    Bool.false_eq_true, if_false] at h1 ⊢
  by_cases hG1 : (jsTruthy f.min_market_cap && tok.marketCap.isSome
      && decide (tok.marketCap.getD 0 < f.min_market_cap.getD 0)) = true
  · rw [if_pos hG1] at h1
    exact absurd h1 (by simp)
  rw [if_neg hG1] at h1 ⊢
  by_cases hG2 : (jsTruthy f.max_market_cap && tok.marketCap.isSome
      && decide (tok.marketCap.getD 0 > f.max_market_cap.getD 0)) = true
  · rw [if_pos hG2] at h1
    exact absurd h1 (by simp)
  rw [if_neg hG2] at h1 ⊢
  by_cases hG3 : (jsTruthy f.min_liquidity && tok.liquidity.isSome
      && decide (tok.liquidity.getD 0 < f.min_liquidity.getD 0)) = true
  · rw [if_pos hG3] at h1
    exact absurd h1 (by simp)
  rw [if_neg hG3] at h1 ⊢
  by_cases hG4 : (jsTruthy f.max_liquidity && tok.liquidity.isSome
      && decide (tok.liquidity.getD 0 > f.max_liquidity.getD 0)) = true
  · rw [if_pos hG4] at h1
    exact absurd h1 (by simp)
  rw [if_neg hG4] at h1 ⊢
  by_cases hS : ((jsTruthy f.min_holders || jsTruthy f.max_holders)
      && tok.holdersCount.isNone) = true
  · rw [if_pos hS]
  rw [if_neg hS] at h1 ⊢
  by_cases hC1 : (jsTruthy f.min_holders && tok.holdersCount.isSome
      && decide (tok.holdersCount.getD 0 < f.min_holders.getD 0)) = true
  · rw [if_pos hC1] at h1
    exact absurd h1 (by simp)
  rw [if_neg hC1] at h1 ⊢
  by_cases hC2 : (jsTruthy f.max_holders && tok.holdersCount.isSome
      && decide (tok.holdersCount.getD 0 > f.max_holders.getD 0)) = true
  · rw [if_pos hC2] at h1
    exact absurd h1 (by simp)
  rw [if_neg hC2] at h1 ⊢
  by_cases hD : jsTruthy f.max_dev_tokens = true
  · rw [if_pos hD]
  · rw [if_neg hD]
    exact h1

/-- Peeling lemma for the contract-age bound with the datum absent. -/
lemma C1aux_age (tok : TokenData) (f : FilterRow) (h0 : tok.contractAge = none)
    (h1 : Telegram.matchesFilter tok { f with min_contract_age := none } = true) :
    Telegram.matchesFilter tok f = true := by
  have jn : jsTruthy (none : Option ℚ) = false := rfl
  simp only [Telegram.matchesFilter, h0, Option.isSome_none, Option.isNone_none,
    Bool.and_false, Bool.false_and, Bool.and_true, jn, Bool.or_self,
    Bool.false_eq_true, if_false] at h1 ⊢
  by_cases hG1 : (jsTruthy f.min_market_cap && tok.marketCap.isSome
      && decide (tok.marketCap.getD 0 < f.min_market_cap.getD 0)) = true
  · rw [if_pos hG1] at h1
    exact absurd h1 (by simp)
  rw [if_neg hG1] at h1 ⊢
  by_cases hG2 : (jsTruthy f.max_market_cap && tok.marketCap.isSome
      && decide (tok.marketCap.getD 0 > f.max_market_cap.getD 0)) = true
  · rw [if_pos hG2] at h1
    exact absurd h1 (by simp)
  rw [if_neg hG2] at h1 ⊢
  by_cases hG3 : (jsTruthy f.min_liquidity && tok.liquidity.isSome
      && decide (tok.liquidity.getD 0 < f.min_liquidity.getD 0)) = true
  · rw [if_pos hG3] at h1
    exact absurd h1 (by simp)
  rw [if_neg hG3] at h1 ⊢
  by_cases hG4 : (jsTruthy f.max_liquidity && tok.liquidity.isSome
      && decide (tok.liquidity.getD 0 > f.max_liquidity.getD 0)) = true
  · rw [if_pos hG4] at h1
    exact absurd h1 (by simp)
  rw [if_neg hG4] at h1 ⊢
  by_cases hS : ((jsTruthy f.min_holders || jsTruthy f.max_holders)
      && tok.holdersCount.isNone) = true
  · rw [if_pos hS]
  rw [if_neg hS] at h1 ⊢
  by_cases hC1 : (jsTruthy f.min_holders && tok.holdersCount.isSome
      && decide (tok.holdersCount.getD 0 < f.min_holders.getD 0)) = true
  · rw [if_pos hC1] at h1
    exact absurd h1 (by simp)
  rw [if_neg hC1] at h1 ⊢
  by_cases hC2 : (jsTruthy f.max_holders && tok.holdersCount.isSome
      && decide (tok.holdersCount.getD 0 > f.max_holders.getD 0)) = true
  · rw [if_pos hC2] at h1
    exact absurd h1 (by simp)
  rw [if_neg hC2] at h1 ⊢
  by_cases hDS : (jsTruthy f.max_dev_tokens && tok.devTokensPercentage.isNone) = true
  · rw [if_pos hDS]
  rw [if_neg hDS] at h1 ⊢
  by_cases hDC : (jsTruthy f.max_dev_tokens && tok.devTokensPercentage.isSome
      && decide (tok.devTokensPercentage.getD 0 > f.max_dev_tokens.getD 0)) = true
  · rw [if_pos hDC] at h1
    exact absurd h1 (by simp)
  rw [if_neg hDC] at h1 ⊢
  by_cases hA : jsTruthy f.min_contract_age = true
  · rw [if_pos hA]
  · rw [if_neg hA]
    exact h1

/-- The Scenario B event: liquidity 50000, market cap 80000, trading
enabled, no holders count (nor dev holdings or contract age). -/
def c1tok : TokenData :=
  { address := "T1", name := "N", symbol := "S", priceUsd := some 1,
    marketCap := some 80000, liquidity := some 50000, fdv := some 80000,
    holdersCount := none, tradingEnabled := some true,
    contractAge := none, devTokensPercentage := none }

/-- A spec with a holders bound the event lacks data for, plus a
trading-enabled constraint the event fails. -/
def c1spec : FilterRow :=
  { user_id := "u1", min_holders := some 100, trading_enabled := some (some false) }

/-- C1 counterexample: with no `holdersCount`, the spec
`{min_holders: 100, trading_enabled: false}` MATCHES (the missing-data
skip returns true, bypassing the trading check), while the same spec
with the holder bound removed FAILS on the trading check — so the result
does not equal that of the spec with the bound removed. -/
theorem C1_counterexample :
    c1tok.holdersCount = none
    ∧ Telegram.matchesFilter c1tok c1spec = true
    ∧ Telegram.matchesFilter c1tok { c1spec with min_holders := none } = false := by
  refine ⟨rfl, by decide, by decide⟩

/-- C1 (amended): a numeric bound on data the event does not carry never
makes `matchesFilter` fail — Scenario B holds, and for the holders,
dev-holdings and contract-age bounds, adding such a bound to any passing
spec keeps it passing (the skip returns `true` immediately, which can
only turn a non-match into a match, not the reverse). -/
theorem C1_missing_data_skip (tok : TokenData) (f : FilterRow) :
    Telegram.matchesFilter c1tok { min_holders := some 100 } = true
    ∧ (tok.holdersCount = none →
        Telegram.matchesFilter tok { f with min_holders := none, max_holders := none } = true →
        Telegram.matchesFilter tok f = true)
    ∧ (tok.devTokensPercentage = none →
        Telegram.matchesFilter tok { f with max_dev_tokens := none } = true →
        Telegram.matchesFilter tok f = true)
    ∧ (tok.contractAge = none →
        Telegram.matchesFilter tok { f with min_contract_age := none } = true →
        Telegram.matchesFilter tok f = true) :=
  ⟨by decide, C1aux_holders tok f, C1aux_dev tok f, C1aux_age tok f⟩

/-- Witness for C1 at the Scenario B event and spec. -/
theorem C1_missing_data_skip_witness :
    c1tok.holdersCount = none
    ∧ Telegram.matchesFilter c1tok { min_holders := some 100 } = true :=
  ⟨rfl, (C1_missing_data_skip c1tok { min_holders := some 100 }).2.1 rfl (by decide)⟩
